import Mathlib

/-!
# Verification development for the Research-Paper-Summarization multi-agent system

Shallow embedding of the pipeline core of the repository
(`src/api/routes.py`, `src/services/orchestrator.py`, and the agents in
`src/agents/`) and proofs about the behaviour the specification claims.

Modelling conventions:
* Python `str` values that the text-processing agents manipulate are modelled
  as `List Char` (ASCII semantics for character classes such as `\w`, `\s`,
  `[A-Z]`, matching the inputs the heuristics are written for).
* Python `float` progress values in the workflow code are integral literals
  (`20.0`, `35.0`, ...); they are modelled as `Nat`.  The per-paper progress
  `35 + int((i/total)*35)` truncates a non-negative float and is modelled as
  `35 + 35*i/total` with `Nat` division.
* Sentence-scoring floats are modelled as exact rationals (`ℚ`); no claim in
  this development depends on which sentences the scorer ranks highest.
* External libraries (the regex engine used only for the key-insight patterns,
  NLTK, the gTTS renderer, PyMuPDF) are modelled as explicit parameters or as
  per-file/per-call outcome fields, never as stubs of in-repo logic.
-/

namespace RPS

/-- Shorthand for the `List Char` representation of a Python string. -/
abbrev Str := List Char

/-- Convert a Lean string literal to the `Str` representation. -/
def cs (s : String) : Str := s.toList

/-- Python `\s` (ASCII whitespace: space, tab, newline, carriage return,
vertical tab, form feed). -/
def isPySpace (c : Char) : Bool :=
  c = ' ' || c = '\t' || c = '\n' || c = '\r' || c = '\x0b' || c = '\x0c'

/-- Python `\w` word character (ASCII): letter, digit or underscore. -/
def isWordChar (c : Char) : Bool :=
  c.isAlpha || c.isDigit || c = '_'

/-- Python `str.strip()`: drop leading and trailing whitespace. -/
def pyStrip (l : Str) : Str :=
  ((l.dropWhile isPySpace).reverse.dropWhile isPySpace).reverse

/-- Python `str.lower()` (ASCII). -/
def toLowerStr (l : Str) : Str := l.map Char.toLower

/-- Python `str.isupper()`: at least one cased character and every cased
character uppercase (ASCII model: cased characters are letters). -/
def pyIsUpper (l : Str) : Bool :=
  l.any Char.isAlpha && l.all (fun c => !c.isAlpha || c.isUpper)

/-- Python substring test `needle in hay`. -/
def pyContains (hay needle : Str) : Bool :=
  hay.tails.any (fun t => needle.isPrefixOf t)

/-- Python `str.startswith(p)`. -/
def pyStartsWith (l p : Str) : Bool := p.isPrefixOf l

/-- Python `str.startswith((p1, ..., pn))`. -/
def pyStartsWithAny (l : Str) (ps : List Str) : Bool :=
  ps.any (fun p => pyStartsWith l p)

/-- Python `" ".join`. -/
def joinSpace (ls : List Str) : Str := (ls.intersperse (cs " ")).flatten

/-- Python `sep.join`. -/
def joinWith (sep : Str) (ls : List Str) : Str := (ls.intersperse sep).flatten

/-- Auxiliary worker for `pySplit`: `cur` holds the reversed current word. -/
def pySplitAux : Str → Str → List Str
  | [], cur => if cur = [] then [] else [cur.reverse]
  | c :: rest, cur =>
    if isPySpace c then
      if cur = [] then pySplitAux rest [] else cur.reverse :: pySplitAux rest []
    else pySplitAux rest (c :: cur)

/-- Python `str.split()` (no argument): split on whitespace runs, dropping
empty pieces. -/
def pySplit (l : Str) : List Str := pySplitAux l []

/-- Auxiliary worker for `wordRuns` over word characters. -/
def wordRunsAux : Str → Str → List Str
  | [], cur => if cur = [] then [] else [cur.reverse]
  | c :: rest, cur =>
    if isWordChar c then wordRunsAux rest (c :: cur)
    else if cur = [] then wordRunsAux rest [] else cur.reverse :: wordRunsAux rest []

/-- Python `re.findall(r'\b\w+\b', s)`: the maximal runs of word characters. -/
def wordRuns (l : Str) : List Str := wordRunsAux l []

/-- Auxiliary worker for `collapseWs`; the flag records whether the previous
character was whitespace. -/
def collapseWsAux : Str → Bool → Str
  | [], _ => []
  | c :: rest, prevSpace =>
    if isPySpace c then
      if prevSpace then collapseWsAux rest true else ' ' :: collapseWsAux rest true
    else c :: collapseWsAux rest false

/-- Python `re.sub(r'\s+', ' ', s)`: collapse every whitespace run to a single
space. -/
def collapseWs (l : Str) : Str := collapseWsAux l false

/-- Python `str.rfind(c)`: index of the last occurrence, `-1` if absent. -/
def pyRfind (l : Str) (c : Char) : Int :=
  match l.reverse.findIdx? (· = c) with
  | some i => (l.length : Int) - 1 - i
  | none => -1

/-- Python `lst.count(x)` / `text.count` on single needles is `List.count`;
splitting on a single character, as in `content.split('\n')`. -/
def pySplitOn (sep : Char) (l : Str) : List Str := l.splitOn sep

/-- Insert `x` after every element `y` with `le y x`: the building block of a
stable sort. -/
def pyInsert (le : α → α → Bool) (x : α) : List α → List α
  | [] => [x]
  | y :: ys => if le y x then y :: pyInsert le x ys else x :: y :: ys

/-- Stable sort by a boolean "comes before or equal" relation, modelling
Python's stable `sorted`/`list.sort` (equal-key elements keep their original
order; `reverse=True` is modelled by flipping the key comparison, which is
also stable in CPython). -/
def pySorted (le : α → α → Bool) (l : List α) : List α :=
  l.foldl (fun acc x => pyInsert le x acc) []

/-! ## Data model (`src/models/data_models.py`) -/

/-- `ResearchPaper` dataclass: id, title, authors, abstract, content, doi,
url and the mutable topic list. -/
structure Paper where
  id : Str
  title : Str
  authors : List Str
  abstract : Str
  content : Str
  doi : Str
  url : Str
  topics : List Str
deriving DecidableEq, Repr

/-! ## Summarization agent (`src/agents/summarization_agent.py`)

`settings.use_extractive_summarization` and `settings.disable_heavy_models`
are both `False` and `_initialize_summarizer` unconditionally sets
`model_available = False` (the transformer branch is commented out), so
`process` always takes the extractive path, falling back to
`_generate_fallback_summary` when the prepared text is too thin.

The two regex insight patterns of `_extract_key_insights` run on an external
regex engine; the raw list of `re.findall` capture results is therefore a
parameter (`oracle`) of the model.  Nothing proved here depends on it. -/

/-- The shared UI truncation snippet (`max_length = 150`) used by the
abstractive, extractive (three-or-more-sentence branch) and fallback summary
generators: truncate to 150 characters at a sentence or word boundary,
appending `"..."` when no boundary is close enough. -/
def truncate150 (s : Str) : Str :=
  if s.length ≤ 150 then s
  else
    let t := s.take 150
    let lastPeriod := pyRfind t '.'
    let lastSpace := pyRfind t ' '
    if 100 < lastPeriod then t.take (lastPeriod.toNat + 1)
    else if 130 < lastSpace then t.take lastSpace.toNat ++ cs "..."
    else t ++ cs "..."

/-- The meaningful-line filter in `_prepare_text_for_summarization`:
length over 50, not all-caps, not a header/link line, not only
digits/dots/whitespace (`re.match(r'^[\d\.\s]+$', line)` requires a non-empty
all-class line). -/
def isMeaningfulPrepLine (line : Str) : Bool :=
  50 < line.length && !pyIsUpper line &&
    !pyStartsWithAny line
      [cs "http", cs "doi:", cs "DOI:", cs "References", cs "Bibliography"] &&
    !(line ≠ [] && line.all (fun c => c.isDigit || c = '.' || isPySpace c))

/-- The line-collection loop of `_prepare_text_for_summarization`: strip each
line, keep the meaningful ones, and break once the joined text exceeds 1500
characters (the check runs after each possible append). -/
def collectPrepLines : List Str → List Str → List Str
  | [], acc => acc
  | l :: rest, acc =>
    let line := pyStrip l
    let acc' := if isMeaningfulPrepLine line then acc ++ [line] else acc
    if 1500 < (joinSpace acc').length then acc' else collectPrepLines rest acc'

/-- `_prepare_text_for_summarization`: pick the abstract when it is
substantial, otherwise mine the content for meaningful lines; prefix the
title; normalise whitespace and drop special characters. -/
def prepareText (p : Paper) : Str :=
  let base :=
    if p.abstract ≠ [] ∧ 100 < (pyStrip p.abstract).length then pyStrip p.abstract
    else if p.content ≠ [] then
      let meaningful := collectPrepLines (pySplitOn '\n' p.content) []
      if meaningful ≠ [] then joinSpace (meaningful.take 5) else p.content.take 1000
    else []
  let text := if p.title ≠ [] then p.title ++ cs ". " ++ base else base
  let text := collapseWs text
  let text := text.filter (fun c =>
    isWordChar c || isPySpace c ||
      c = '.' || c = ',' || c = ';' || c = ':' || c = '!' || c = '?' ||
      c = '\'' || c = '-')
  pyStrip text

/-- Worker for the fallback sentence splitter
`re.split(r'(?<=[.!?])\s+(?=[A-Z])', text)`: `acc` is the reversed current
piece, `ws` the reversed pending whitespace run.  A whitespace run separates
two sentences exactly when it is preceded by `.`, `!` or `?` and followed by
an ASCII uppercase letter; otherwise it stays inside the piece. -/
def splitSentencesAux : Str → Str → Str → List Str
  | [], acc, ws => [(ws ++ acc).reverse]
  | c :: rest, acc, ws =>
    if isPySpace c then splitSentencesAux rest acc (c :: ws)
    else
      if ws ≠ [] ∧
          (acc.head?.any (fun p => p = '.' || p = '!' || p = '?')) = true ∧
          c.isUpper then
        acc.reverse :: splitSentencesAux rest [c] []
      else splitSentencesAux rest (c :: (ws ++ acc)) []

/-- The regex-based sentence split of `_tokenize_sentences` (the in-repo
fallback path; the optional NLTK tokenizer is an external library). -/
def splitSentences (text : Str) : List Str := splitSentencesAux text [] []

/-- The sentence-cleaning filter of `_tokenize_sentences`: strip, keep
sentences longer than 20 characters, not all-caps, not matching
`^[\d\s\.\-]+$`, with more than 3 whitespace-separated words. -/
def tokenizeSentences (text : Str) : List Str :=
  ((splitSentences text).map pyStrip).filter (fun s =>
    20 < s.length && !pyIsUpper s &&
      !(s ≠ [] && s.all (fun c => c.isDigit || isPySpace c || c = '.' || c = '-')) &&
      3 < (pySplit s).length)

/-- The in-repo fallback stop-word set of `_score_sentences` (the NLTK corpus
variant is an external resource). -/
def stopWords : List Str :=
  [cs "the", cs "a", cs "an", cs "and", cs "or", cs "but", cs "in", cs "on",
   cs "at", cs "to", cs "for", cs "of", cs "with", cs "by", cs "as", cs "is",
   cs "are", cs "was", cs "were", cs "this", cs "that", cs "these", cs "those",
   cs "be", cs "been", cs "being", cs "have", cs "has", cs "had", cs "do",
   cs "does", cs "did", cs "will", cs "would", cs "could", cs "should"]

/-- `important_keywords` of `_score_sentences`. -/
def importantKeywords : List Str :=
  [cs "research", cs "study", cs "finding", cs "result", cs "conclusion",
   cs "analysis", cs "method", cs "approach", cs "significant", cs "important",
   cs "novel", cs "new", cs "propose", cs "demonstrate", cs "show", cs "reveal",
   cs "indicate", cs "suggest", cs "improve", cs "effective", cs "performance",
   cs "accuracy", cs "model", cs "algorithm"]

/-- The per-sentence word list of `_score_sentences`: lower-cased word runs
that are not stop words and are longer than two characters. -/
def contentWords (s : Str) : List Str :=
  (wordRuns s).filterMap (fun w =>
    let lw := toLowerStr w
    if lw ∉ stopWords ∧ 2 < w.length then some lw else none)

/-- The scoring formula of `_score_sentences` for the sentence at index
`idx`, with `n` sentences in total and `allWords` the concatenation of every
sentence's `contentWords` (the `word_freq` counter).  Floats are modelled as
exact rationals. -/
def sentenceScore (n : Nat) (allWords : List Str) (idx : Nat) (s : Str) : ℚ :=
  let words := contentWords s
  if words = [] then 0
  else
    let base : ℚ := ((words.map (fun w => (allWords.count w : ℚ))).sum) / words.length
    let kw : ℚ := 2 * (words.filter (fun w => w ∈ importantKeywords)).length
    let pos : ℚ := 1 + (1 / 10) * max 0 ((((n : ℚ) - idx) / n))
    let slen := (pySplit s).length
    let lenB : ℚ :=
      if 10 ≤ slen ∧ slen ≤ 30 then 12 / 10
      else if slen < 5 ∨ 50 < slen then 1 / 2
      else 1
    let techCount := (words.filter (fun w =>
      match w.head? with
      | some c => c.isDigit
      | none => false)).length
    let techRatio : ℚ := (techCount : ℚ) / words.length
    let techPen : ℚ := if 3 / 10 < techRatio then 7 / 10 else 1
    (base + kw) * pos * lenB * techPen

/-- `_score_sentences`: each sentence paired with its score and original
index. -/
def scoreSentences (sentences : List Str) : List (Str × ℚ × Nat) :=
  let allWords := sentences.flatMap contentWords
  sentences.enum.map (fun iv => (iv.2, sentenceScore sentences.length allWords iv.1 iv.2, iv.1))

/-- The raw capture strings the two `insight_patterns` of
`_extract_key_insights` produce on a given text: supplied by the external
regex engine, hence a parameter of the model. -/
abbrev InsightOracle := Str → List Str

/-- `_extract_key_insights`: run the patterns over `f"{summary} {abstract}"`,
keep stripped captures of length strictly between 20 and 200, return at most
three. -/
def extractKeyInsights (oracle : InsightOracle) (p : Paper) (summary : Str) : List Str :=
  (((oracle (summary ++ cs " " ++ p.abstract)).map pyStrip).filter
    (fun i => 20 < i.length ∧ i.length < 200)).take 3

/-- The dictionary every summary generator returns. -/
structure SummaryDict where
  summary : Str
  paper_id : Str
  length : Nat
  method : Str
  key_insights : List Str
  topics : List Str
  title : Str
deriving DecidableEq, Repr

/-- The meaningful-line filter of `_generate_fallback_summary` (note: length
over 30, and only `http`/`doi:`/`DOI:` prefixes, with `-` in the digit
class). -/
def isMeaningfulFallbackLine (line : Str) : Bool :=
  30 < line.length && !pyIsUpper line &&
    !pyStartsWithAny line [cs "http", cs "doi:", cs "DOI:"] &&
    !(line ≠ [] && line.all (fun c => c.isDigit || c = '.' || isPySpace c || c = '-'))

/-- The content-mining loop of `_generate_fallback_summary`: first 10 lines,
break only after an append pushes the joined text over 200 characters. -/
def collectFallbackLines : List Str → List Str → List Str
  | [], acc => acc
  | l :: rest, acc =>
    let line := pyStrip l
    if isMeaningfulFallbackLine line then
      let acc' := acc ++ [line]
      if 200 < (joinSpace acc').length then acc' else collectFallbackLines rest acc'
    else collectFallbackLines rest acc

/-- `_generate_fallback_summary`: template from title, topics and
abstract/content, then the 150-character UI truncation. -/
def generateFallbackSummary (p : Paper) : SummaryDict :=
  let parts₀ : List Str :=
    if p.title ≠ [] then [cs "This research paper titled '" ++ p.title ++ cs "'"]
    else [cs "This research paper"]
  let parts₁ :=
    if p.topics ≠ [] then
      parts₀ ++ [cs "focuses on " ++ joinWith (cs ", ") (p.topics.take 3)]
    else parts₀
  let parts₂ :=
    if p.abstract ≠ [] ∧ 50 < (pyStrip p.abstract).length then
      let clean := collapseWs (pyStrip p.abstract)
      let clean := if 300 < clean.length then clean.take 300 ++ cs "..." else clean
      parts₁ ++ [cs "Abstract: " ++ clean]
    else if p.content ≠ [] then
      let meaningful := collectFallbackLines ((pySplitOn '\n' p.content).take 10) []
      if meaningful ≠ [] then
        let summ := joinSpace meaningful
        let summ := if 250 < summ.length then summ.take 250 ++ cs "..." else summ
        parts₁ ++ [summ]
      else parts₁ ++ [cs "presents research findings and analysis"]
    else parts₁ ++ [cs "presents research findings and analysis"]
  let summary := joinWith (cs ". ") parts₂
  let summary := if summary.getLast? = some '.' then summary else summary ++ cs "."
  let summary := truncate150 summary
  { summary := summary
    paper_id := p.id
    length := summary.length
    method := cs "fallback"
    key_insights := []
    topics := p.topics
    title := p.title }

/-- `_generate_extractive_summary`: prepare text, tokenize, and either fall
back (thin text / no sentences), join one or two sentences verbatim, or rank
and truncate three or more. -/
def generateExtractiveSummary (oracle : InsightOracle) (p : Paper) : SummaryDict :=
  let text := prepareText p
  if (pyStrip text).length < 100 then generateFallbackSummary p
  else
    let sentences := tokenizeSentences text
    if sentences.length = 0 then generateFallbackSummary p
    else
      let summary :=
        if sentences.length ≤ 2 then joinSpace sentences
        else
          let scored := scoreSentences sentences
          let total := sentences.length
          let num :=
            if total ≤ 5 then min 2 total
            else if total ≤ 10 then 3
            else max 3 (min 5 (total / 4))
          let top := (pySorted (fun a b => decide (b.2.1 ≤ a.2.1)) scored).take num
          let ordered := pySorted (fun a b => decide (a.2.2 ≤ b.2.2)) top
          truncate150 (joinSpace (ordered.map (fun t => t.1)))
      { summary := summary
        paper_id := p.id
        length := summary.length
        method := cs "extractive"
        key_insights := extractKeyInsights oracle p summary
        topics := p.topics
        title := p.title }

/-- `_generate_abstractive_summary` after the external transformer calls:
`chunkSummaries` is the list of chunk summary texts the model returned (empty
when every chunk failed, in which case `paper.abstract[:300]` is used), then
the same 150-character truncation.  With the repository's settings this
branch is unreachable (`model_available` is always `False`). -/
def generateAbstractiveFinal (oracle : InsightOracle) (p : Paper)
    (chunkSummaries : List Str) : SummaryDict :=
  let final :=
    if chunkSummaries ≠ [] then joinSpace chunkSummaries else p.abstract.take 300
  let final := truncate150 final
  { summary := final
    paper_id := p.id
    length := final.length
    method := cs "abstractive"
    key_insights := extractKeyInsights oracle p final
    topics := p.topics
    title := p.title }

/-- `SummarizationAgent.process`: `model_available` is always `False`, so the
extractive generator runs (its thin-text cases already delegate to the
fallback generator, mirroring the `except` clause of `process`). -/
def summarizerProcess (oracle : InsightOracle) (p : Paper) : SummaryDict :=
  generateExtractiveSummary oracle p

/-! ## Classification agent (`src/agents/classification_agent.py`)

`settings.use_extractive_summarization` and `settings.disable_heavy_models`
are both `False`, so the constructor runs `_initialize_ml_classification`,
which unconditionally sets `model_available = False`; `process` therefore
always returns `_fallback_classification(paper)`. -/

/-- `topic_definitions` (insertion order preserved, as Python dicts do). -/
def topicDefinitions : List (Str × List Str) :=
  [(cs "Artificial Intelligence",
    [cs "artificial intelligence", cs "AI", cs "machine intelligence",
     cs "cognitive computing", cs "intelligent systems", cs "AI algorithms",
     cs "artificial neural networks"]),
   (cs "Machine Learning",
    [cs "machine learning", cs "ML", cs "deep learning", cs "neural networks",
     cs "supervised learning", cs "unsupervised learning",
     cs "reinforcement learning", cs "gradient descent", cs "backpropagation",
     cs "random forest", cs "support vector machine", cs "clustering",
     cs "classification algorithms"]),
   (cs "Natural Language Processing",
    [cs "natural language processing", cs "NLP", cs "text mining",
     cs "language models", cs "text classification", cs "sentiment analysis",
     cs "named entity recognition", cs "machine translation",
     cs "text generation", cs "language understanding"]),
   (cs "Computer Vision",
    [cs "computer vision", cs "image processing", cs "image recognition",
     cs "object detection", cs "image classification",
     cs "convolutional neural networks", cs "CNN", cs "visual recognition",
     cs "image segmentation", cs "face recognition"]),
   (cs "Data Science",
    [cs "data science", cs "data analysis", cs "data mining", cs "big data",
     cs "analytics", cs "statistical analysis", cs "data visualization",
     cs "predictive modeling", cs "business intelligence",
     cs "data engineering"]),
   (cs "Robotics",
    [cs "robotics", cs "autonomous systems", cs "robot control",
     cs "robot navigation", cs "robotic systems", cs "automation",
     cs "mechatronics", cs "robot learning"]),
   (cs "Cybersecurity",
    [cs "cybersecurity", cs "information security", cs "network security",
     cs "encryption", cs "malware detection", cs "intrusion detection",
     cs "security protocols", cs "cyber threats"]),
   (cs "Blockchain",
    [cs "blockchain", cs "cryptocurrency", cs "distributed ledger",
     cs "smart contracts", cs "bitcoin", cs "ethereum",
     cs "decentralized systems", cs "consensus algorithms"]),
   (cs "Quantum Computing",
    [cs "quantum computing", cs "quantum algorithms", cs "quantum mechanics",
     cs "qubits", cs "quantum entanglement", cs "quantum cryptography",
     cs "quantum simulation"]),
   (cs "Software Engineering",
    [cs "software engineering", cs "software development", cs "programming",
     cs "software architecture", cs "code quality", cs "software testing",
     cs "agile development", cs "DevOps"]),
   (cs "Human-Computer Interaction",
    [cs "human-computer interaction", cs "HCI", cs "user interface",
     cs "user experience", cs "usability", cs "interface design",
     cs "interaction design", cs "UX research"]),
   (cs "Bioinformatics",
    [cs "bioinformatics", cs "computational biology", cs "genomics",
     cs "proteomics", cs "biological data analysis", cs "sequence analysis",
     cs "molecular biology"])]

/-- `_fallback_classification`: count keyword hits per topic on the lowered
`f"{title} {abstract}"`, return the top two matching topics (stable
descending sort over dict insertion order), or the generic label pair. -/
def fallbackClassification (p : Paper) : List Str :=
  let text := toLowerStr (p.title ++ cs " " ++ p.abstract)
  let topicMatches : List (Str × Nat) := topicDefinitions.filterMap (fun tk =>
    let m := (tk.2.filter (fun k => pyContains text (toLowerStr k))).length
    if 0 < m then some (tk.1, m) else none)
  if topicMatches ≠ [] then
    ((pySorted (fun a b => decide (b.2 ≤ a.2)) topicMatches).take 2).map (fun t => t.1)
  else [cs "Computer Science", cs "Research"]

/-! ## Synthesis agent (`src/agents/synthesis_agent.py`)

Only `_analyze_topics` (lines 51-75) is claim-relevant; `process` feeds its
result into the narrative generator unchanged. -/

/-- One counting step of a Python dict used as a counter
(`d[k] = d.get(k, 0) + 1`): update the first entry with the key in place,
append a fresh key at the end (Python dicts preserve insertion order). -/
def bump (m : List (Str × Nat)) (k : Str) : List (Str × Nat) :=
  match m with
  | [] => [(k, 1)]
  | (k', v) :: rest => if k' = k then (k', v + 1) :: rest else (k', v) :: bump rest k

/-- `collections.Counter(l)`: fold the counting step over the list. -/
def counterOf (l : List Str) : List (Str × Nat) := l.foldl bump []

/-- The two nested loops of `_analyze_topics`:
`for i, topic1 in enumerate(classification): for topic2 in classification[i+1:]`. -/
def orderedPairs : List Str → List (Str × Str)
  | [] => []
  | t :: rest => rest.map (fun u => (t, u)) ++ orderedPairs rest

/-- The Python co-occurrence key `f"{topic1}_{topic2}"`. -/
def pairKey (pr : Str × Str) : Str := pr.1 ++ cs "_" ++ pr.2

/-- The dictionary `_analyze_topics` returns. -/
structure TopicAnalysis where
  topic_distribution : List (Str × Nat)
  total_unique_topics : Nat
  most_common_topics : List (Str × Nat)
  topic_cooccurrence : List (Str × Nat)
deriving DecidableEq, Repr

/-- `SynthesisAgent._analyze_topics`: topic frequency counter, its number of
keys, the five most common topics (stable descending sort), and the
co-occurrence table built by bumping the ordered pair keys of each
classification list (the `len(classification) > 1` guard is a no-op:
shorter lists contribute no pairs). -/
def analyzeTopics (classifications : List (List Str)) : TopicAnalysis :=
  let allTopics := classifications.flatten
  let counts := counterOf allTopics
  { topic_distribution := counts
    total_unique_topics := counts.length
    most_common_topics := (pySorted (fun a b => decide (b.2 ≤ a.2)) counts).take 5
    topic_cooccurrence :=
      (classifications.flatMap orderedPairs).foldl (fun m pr => bump m (pairKey pr)) [] }

/-- Reading a count out of a Python dict: `d.get(k, 0)` (keys are unique by
construction; the first matching entry is read). -/
def lookupCount (m : List (Str × Nat)) (k : Str) : Nat :=
  match m with
  | [] => 0
  | (k', v) :: rest => if k' = k then v else lookupCount rest k

/-- Specification-side pair count: the number of ordered occurrence pairs of
one classification list whose key is `k`, phrased through length-two
sublists (each two-element sublist `[t1, t2]` of `c` is one occurrence pair
`i < j` in list order). -/
def specKeyCount (c : List Str) (k : Str) : Nat :=
  ((c.sublistsLen 2).map (fun s => s.getD 0 [] ++ cs "_" ++ s.getD 1 [])).count k

/-! ## The per-paper analysis loop

`routes.py` `_process_search_background` (lines 331-349) and
`_process_upload_background` (lines 545-564) run, for each paper:
`classification = classify(paper)`, `summary = summarize(paper)`, append
both, and only then `paper.topics = classification`.  The orchestrator's own
`_process_search_request_direct` (orchestrator.py lines 148-159) and both
`_continue_processing_pipeline*` variants instead write `paper.topics`
before the summarizer call. -/

/-- Accumulated state of the analysis loop: classifications, summaries and
the (possibly mutated) papers, in order. -/
structure LoopState where
  classifications : List (List Str)
  summaries : List SummaryDict
  papers : List Paper
deriving Repr

/-- One iteration of the `routes.py` background loop: the summarizer sees
the paper *before* its `topics` field is rewritten. -/
def routesLoopStep (oracle : InsightOracle) (st : LoopState) (p : Paper) : LoopState :=
  let c := fallbackClassification p
  let s := summarizerProcess oracle p
  { classifications := st.classifications ++ [c]
    summaries := st.summaries ++ [s]
    papers := st.papers ++ [{ p with topics := c }] }

/-- The `routes.py` background per-paper loop. -/
def routesAnalysisLoop (oracle : InsightOracle) (papers : List Paper) : LoopState :=
  papers.foldl (routesLoopStep oracle) ⟨[], [], []⟩

/-- One iteration of `AgentOrchestrator._process_search_request_direct`:
`paper.topics = classification` happens before the summarizer call. -/
def orchestratorLoopStep (oracle : InsightOracle) (st : LoopState) (p : Paper) : LoopState :=
  let c := fallbackClassification p
  let p' := { p with topics := c }
  let s := summarizerProcess oracle p'
  { classifications := st.classifications ++ [c]
    summaries := st.summaries ++ [s]
    papers := st.papers ++ [p'] }

/-- The orchestrator's direct per-paper loop. -/
def orchestratorAnalysisLoop (oracle : InsightOracle) (papers : List Paper) : LoopState :=
  papers.foldl (orchestratorLoopStep oracle) ⟨[], [], []⟩

/-- A paper as the Discovery agent creates it (`topics=[]`, "Will be filled
by classification agent"): its title matches the `deep learning` keyword of
the `Machine Learning` topic. -/
def deepLearningPaper : Paper :=
  { id := cs "p-dl"
    title := cs "Deep learning methods"
    authors := []
    abstract := []
    content := []
    doi := []
    url := []
    topics := [] }

/-- The paper exhibiting the missing cap in the one-sentence extractive
branch: an empty title, empty content and an abstract that is one 152
character "sentence" without sentence-final punctuation, so the prepared
text (of length over 100) tokenizes into a single sentence that is joined
back verbatim. -/
def longOneSentencePaper : Paper :=
  { id := cs "p-long"
    title := []
    authors := []
    abstract := cs ("alpha bravo charlie delta echo foxtrot golf hotel india " ++
      "juliett kilo lima mike november oscar papa quebec romeo sierra tango " ++
      "uniform victor whiskey xray")
    content := []
    doi := []
    url := []
    topics := [] }

/-! ## Extraction agent (`src/agents/extraction_agent.py`)

`process` dispatches per file on the (lower-cased) extension.  The handlers
`_extract_from_pdf` and `_extract_from_text_file` wrap their whole body in
`try/except` and return `None` on failure, so they never raise into the
dispatch loop; the loop's own `except` clause (which would append a fallback
paper) is unreachable for extraction failures, and `if paper:` silently
drops the `None` results.  Only the unsupported-extension branch builds a
fallback paper.  The per-file handler result (the external file system and
PyMuPDF outcome) is modelled as a field of the input. -/

/-- One uploaded file: its saved path and what the pdf/text handler would
return for it (`none` models an extraction failure caught inside the
handler). -/
structure UploadFile where
  path : Str
  extractResult : Option Paper
deriving DecidableEq, Repr

/-- `os.path.basename`. -/
def pyBasename (path : Str) : Str := (pySplitOn '/' path).getLastD []

/-- `_create_fallback_paper` (the `uuid.uuid4()` id is an opaque fresh
token). -/
def createFallbackPaper (path : Str) (topics : List Str) : Paper :=
  { id := cs "uuid"
    title := cs "Document: " ++ pyBasename path
    authors := [cs "Unknown Author"]
    abstract := cs "Content extraction failed or unsupported file format"
    content := cs "Content extraction failed"
    doi := []
    url := []
    topics := topics }

/-- The per-file dispatch of `ExtractionAgent.process`. -/
def extractionStep (pdfAvailable : Bool) (topics : List Str) (f : UploadFile) : List Paper :=
  if pdfAvailable && (cs ".pdf").isSuffixOf (toLowerStr f.path) then
    match f.extractResult with
    | some p => [p]
    | none => []
  else if (cs ".txt").isSuffixOf (toLowerStr f.path) then
    match f.extractResult with
    | some p => [p]
    | none => []
  else [createFallbackPaper f.path topics]

/-- `ExtractionAgent.process`: one dispatch per file, independent of the
other files' outcomes. -/
def extractionProcess (pdfAvailable : Bool) (files : List UploadFile)
    (topics : List Str) : List Paper :=
  files.flatMap (extractionStep pdfAvailable topics)

/-! ## Audio agent (`src/agents/audio_agent.py`)

`process` writes a placeholder `.txt` artifact when no TTS library is
installed; otherwise it calls `_generate_gtts_audio`, whose body is wrapped
in its own `try/except` returning `[]` on failure, so `process`'s `except`
placeholder branch is unreachable for rendering failures.  When the
synthesis text is empty (falsy) nothing is rendered and `audio_files` stays
`[]`.  The external gTTS call outcome is the `renderOk` parameter and the
`uuid.uuid4()` token the `u` parameter. -/

/-- The word chunks of `_generate_chunked_gtts_audio`
(`words[i:i+100]` for `i in range(0, len(words), 100)`). -/
def chunksOf100 : List Str → List (List Str)
  | [] => []
  | w :: rest => (w :: rest.take 99) :: chunksOf100 (rest.drop 99)
termination_by l => l.length
decreasing_by simp [List.length_drop]; omega

/-- `_generate_gtts_audio` (including the chunked variant): filenames on
success, `[]` when the external call raises (caught internally). -/
def generateGttsAudio (renderOk : Bool) (text : Str) (u : Str) : List Str :=
  if renderOk then
    if 5000 < text.length then
      (List.range (chunksOf100 (pySplit text)).length).map (fun i =>
        cs "audio/synthesis_" ++ u ++ cs "_part" ++ cs (toString (i + 1)) ++ cs ".mp3")
    else [cs "audio/synthesis_" ++ u ++ cs ".mp3"]
  else []

/-- `AudioAgent.process` on a synthesis dict whose `synthesis` entry is
`synthText`. -/
def audioProcess (ttsAvailable renderOk : Bool) (synthText : Str) (u : Str) : List Str :=
  if !ttsAvailable then [cs "audio/synthesis_" ++ u ++ cs ".txt"]
  else if synthText ≠ [] then generateGttsAudio renderOk synthText u
  else []

/-! ## Workflow registry (`src/services/orchestrator.py`, `WorkflowManager`)

The in-memory dict is the authoritative store (the database mirror is
best-effort and never consulted by the status read path).  `created_at`
(`datetime.now()`) is environment input and not modelled. -/

/-- The fields of a `results` payload that the claims inspect; the payload
additionally carries the serialized papers, summaries, classifications and
audio URLs produced by the agent models above. -/
structure ResultsPayload where
  workflow_id : Option String := none
  papers_processed : Option Nat := none
  synthesis_text : Option String := none
  synthesis_paper_count : Option Nat := none
  error : Option String := none
  status : Option String := none
deriving DecidableEq, Repr

/-- One workflow record of `WorkflowManager.workflows`. -/
structure WorkflowRecord where
  id : String
  status : String
  progress : Nat
  message : String
  results : Option ResultsPayload
deriving DecidableEq, Repr

/-- The keyword arguments of one `update_workflow` call. -/
structure WfUpdate where
  status : Option String := none
  progress : Option Nat := none
  message : Option String := none
  results : Option ResultsPayload := none
deriving DecidableEq, Repr

/-- The in-memory workflow store. -/
def Registry : Type := String → Option WorkflowRecord

/-- The store before any workflow is created. -/
def emptyRegistry : Registry := fun _ => none

/-- `WorkflowManager.create_workflow`. -/
def createWorkflow (wid : String) (st : String) (reg : Registry) : Registry :=
  fun k =>
    if k = wid then
      some { id := wid, status := st, progress := 0, message := "Workflow created",
             results := none }
    else reg k

/-- `dict.update(kwargs)` on one record. -/
def mergeUpdate (r : WorkflowRecord) (u : WfUpdate) : WorkflowRecord :=
  { r with
    status := u.status.getD r.status
    progress := u.progress.getD r.progress
    message := u.message.getD r.message
    results :=
      match u.results with
      | some x => some x
      | none => r.results }

/-- `WorkflowManager.update_workflow`: merge the fields if the id is known,
otherwise a no-op. -/
def updateWorkflow (wid : String) (u : WfUpdate) (reg : Registry) : Registry :=
  fun k =>
    if k = wid then (reg wid).map (fun r => mergeUpdate r u)
    else reg k

/-- `WorkflowManager.get_workflow` / `AgentOrchestrator.get_workflow_status`. -/
def getWorkflow (reg : Registry) (wid : String) : Option WorkflowRecord := reg wid

/-! ## Background pipeline traces (`src/api/routes.py`)

`_process_search_background` and `_process_upload_background` are modelled
as the ordered list of observable events they perform on a run with `n`
papers: registry writes, awaited sleeps and downstream agent calls.  An
unhandled exception at any point is modelled by cutting the trace after `k`
events and appending the `except`-clause failure write, after which the
coroutine returns normally (nothing propagates). -/

/-- One observable step of a background job. -/
inductive Event where
  | create (st : String)
  | update (u : WfUpdate)
  | agentCall (agent : String)
  | sleep
deriving DecidableEq, Repr

/-- Effect of one event on the registry (sleeps and agent calls leave it
unchanged). -/
def applyEvent (wid : String) (reg : Registry) (e : Event) : Registry :=
  match e with
  | .create st => createWorkflow wid st reg
  | .update u => updateWorkflow wid u reg
  | .agentCall _ => reg
  | .sleep => reg

/-- Run a trace against the registry. -/
def runEvents (wid : String) (evs : List Event) (reg : Registry) : Registry :=
  evs.foldl (applyEvent wid) reg

/-- The progress value an event writes to the record, if any
(`create_workflow` initialises progress to `0.0`). -/
def progressOf : Event → Option Nat
  | .create _ => some 0
  | .update u => u.progress
  | _ => none

/-- The sequence of progress values a trace writes. -/
def progressWrites (evs : List Event) : List Nat := evs.filterMap progressOf

/-- An event that moves the record into a terminal state. -/
def isTerminalEvent : Event → Bool
  | .update u => u.status = some "completed" || u.status = some "failed"
  | _ => false

/-- The empty-result payload of the search flow
(`routes.py` lines 305-313). -/
def searchEmptyResults : ResultsPayload :=
  { papers_processed := some 0
    synthesis_text := some "No papers found for the search query"
    synthesis_paper_count := some 0
    status := some "completed" }

/-- The modelled fields of the search success payload
(`routes.py` lines 434-443). -/
def searchSuccessResults (wid : String) (n : Nat) : ResultsPayload :=
  { workflow_id := some wid
    papers_processed := some n
    status := some "completed" }

/-- The per-paper progress update of the search loop:
`35 + int((i / total) * 35)` (the `paper.title[:50]` tail of the message is
omitted; no claim reads it). -/
def searchPaperUpdate (n i : Nat) : Event :=
  .update { progress := some (35 + 35 * i / n)
            message := some ("Analyzing paper " ++ toString (i + 1) ++ "/" ++ toString n) }

/-- Every event of `_process_search_background` before its terminal write,
in program order. -/
def searchBody (n : Nat) : List Event :=
  [.create "processing",
   .update { message := some "Searching ArXiv database...", progress := some 20 },
   .sleep,
   .agentCall "discovery",
   .update { message := some ("Found " ++ toString n ++ " papers"), progress := some 30 },
   .sleep] ++
  (if n = 0 then []
   else
    [.update { progress := some 35, message := some "Starting paper analysis..." },
     .sleep] ++
    (List.range n).flatMap (fun i =>
      [searchPaperUpdate n i, .sleep, .agentCall "classification",
       .agentCall "summarization"]) ++
    [.update { progress := some 75, message := some "Synthesizing findings across papers..." },
     .sleep,
     .agentCall "synthesis",
     .update { progress := some 85, message := some "Synthesis completed" },
     .sleep,
     .update { progress := some 90, message := some "Generating audio summary..." },
     .sleep,
     .agentCall "audio",
     .update { progress := some 95, message := some "Audio generation completed" },
     .sleep,
     .update { progress := some 98, message := some "Finalizing results..." }])

/-- The terminal write of a successful search run. -/
def searchFinal (wid : String) (n : Nat) : Event :=
  if n = 0 then
    .update { status := some "completed", progress := some 100,
              message := some "No papers found", results := some searchEmptyResults }
  else
    .update { status := some "completed", progress := some 100,
              message := some "Processing completed successfully!",
              results := some (searchSuccessResults wid n) }

/-- The full successful search trace. -/
def searchEvents (wid : String) (n : Nat) : List Event :=
  searchBody n ++ [searchFinal wid n]

/-- The empty-result payload of the upload flow
(`routes.py` lines 519-527). -/
def uploadEmptyResults : ResultsPayload :=
  { papers_processed := some 0
    synthesis_text := some "No content could be extracted from uploaded files"
    synthesis_paper_count := some 0
    status := some "completed" }

/-- The modelled fields of the upload success payload. -/
def uploadSuccessResults (wid : String) (n : Nat) : ResultsPayload :=
  { workflow_id := some wid
    papers_processed := some n
    status := some "completed" }

/-- The per-paper progress update of the upload loop:
`30 + int((i / total) * 35)`. -/
def uploadPaperUpdate (n i : Nat) : Event :=
  .update { progress := some (30 + 35 * i / n)
            message := some ("Analyzing document " ++ toString (i + 1) ++ "/" ++ toString n) }

/-- Every event of `_process_upload_background` before its terminal write. -/
def uploadBody (n : Nat) : List Event :=
  [.create "processing",
   .update { message := some "Processing uploaded files...", progress := some 10 },
   .sleep,
   .agentCall "extraction",
   .update { message := some ("Extracted content from " ++ toString n ++ " files"),
             progress := some 25 },
   .sleep] ++
  (if n = 0 then []
   else
    [.update { progress := some 30, message := some "Starting document analysis..." },
     .sleep] ++
    (List.range n).flatMap (fun i =>
      [uploadPaperUpdate n i, .sleep, .agentCall "classification",
       .agentCall "summarization"]) ++
    [.update { progress := some 70,
               message := some "Synthesizing findings across documents..." },
     .agentCall "synthesis",
     .update { progress := some 80, message := some "Synthesis completed" },
     .update { progress := some 85, message := some "Generating audio summary..." },
     .agentCall "audio",
     .update { progress := some 95, message := some "Audio generation completed" },
     .update { progress := some 98, message := some "Finalizing results..." }])

/-- The terminal write of a successful upload run. -/
def uploadFinal (wid : String) (n : Nat) : Event :=
  if n = 0 then
    .update { status := some "completed", progress := some 100,
              message := some "No content could be extracted from uploaded files",
              results := some uploadEmptyResults }
  else
    .update { status := some "completed", progress := some 100,
              message := some "Upload processing completed successfully!",
              results := some (uploadSuccessResults wid n) }

/-- The full successful upload trace. -/
def uploadEvents (wid : String) (n : Nat) : List Event :=
  uploadBody n ++ [uploadFinal wid n]

/-- The failure write of the `except` clause: status `failed`, progress
reset to `0.0`, the error text in the message and an error payload. -/
def failEvent (msgHead : String) (err : String) (wid : String) : Event :=
  .update { status := some "failed", progress := some 0,
            message := some (msgHead ++ err),
            results := some { workflow_id := some wid, error := some err,
                              status := some "failed" } }

/-- A search run interrupted by an unhandled exception after `k` events. -/
def searchFailTrace (wid : String) (n k : Nat) (err : String) : List Event :=
  (searchEvents wid n).take k ++ [failEvent "Processing failed: " err wid]

/-- An upload run interrupted by an unhandled exception after `k` events. -/
def uploadFailTrace (wid : String) (n k : Nat) (err : String) : List Event :=
  (uploadEvents wid n).take k ++ [failEvent "Upload processing failed: " err wid]

/-! ## Search submission (`src/api/routes.py`, `process_search_request`)

The handler validates the query, generates a workflow id and merely
*schedules* `_process_search_background`; it performs no registry write
itself (the `create_workflow` call is the first action of the background
task), which is why its model takes no registry and returns none. -/

/-- Python truthiness of an optional string (`None` and `""` are falsy). -/
def truthy : Option String → Option String
  | some s => if s = "" then none else some s
  | none => none

/-- `request.get('search_query') or request.get('query')`. -/
structure SearchSubmission where
  search_query : Option String
  query : Option String
deriving DecidableEq, Repr

/-- The first truthy of the two accepted query fields. -/
def effectiveQuery (r : SearchSubmission) : Option String :=
  match truthy r.search_query with
  | some s => some s
  | none => truthy r.query

/-- The submission response body. -/
structure SubmitResponse where
  workflow_id : String
  status : String
  message : String
deriving DecidableEq, Repr

/-- `process_search_request`: HTTP 400 on a missing/empty query, otherwise
the immediate response; the background task is scheduled but has not run. -/
def processSearchRequest (r : SearchSubmission) (wid : String) :
    Except Nat SubmitResponse :=
  match effectiveQuery r with
  | none => .error 400
  | some _ =>
    .ok { workflow_id := wid, status := "processing",
          message := "Search request submitted for processing" }

/-! # Theorems -/

/-! ## Submission and status read (C5) -/

/-- **C5** (counterexample).  A valid search submission returns the workflow
id immediately, but the registry is untouched until the background task runs
its first statement, so a status read in between yields the not-found
outcome (`get_workflow = None`, surfaced as HTTP 404) rather than a
pending/processing record. -/
theorem submission_not_immediately_queryable :
    processSearchRequest { search_query := some "graph neural networks", query := none } "w1"
        = .ok { workflow_id := "w1", status := "processing",
                message := "Search request submitted for processing" } ∧
      getWorkflow emptyRegistry "w1" = none :=
  ⟨rfl, rfl⟩

/-- **C5** (amended).  The returned id becomes queryable with state
`processing` as soon as the background task has executed its first action
(`create_workflow(workflow_id, "processing")`); before that the status read
returns the not-found outcome. -/
theorem submission_queryable_after_task_start (reg : Registry) (wid : String) :
    getWorkflow (createWorkflow wid "processing" reg) wid
      = some { id := wid, status := "processing", progress := 0,
               message := "Workflow created", results := none } := by
  simp [getWorkflow, createWorkflow]

/-! ## Empty-result short-circuit (C4) -/

/-- **C4**.  When the first stage reports zero papers, both background flows
perform no classification/summarization/synthesis/audio agent call, and
their single terminal write completes the workflow at progress 100 with a
payload carrying `papers_processed = 0`, a synthesis `paper_count` of `0`
and a non-empty degenerate narrative. -/
theorem empty_result_short_circuit :
    ((searchEvents "w" 0).all (fun e =>
        match e with
        | .agentCall a => a = "discovery"
        | _ => true) = true) ∧
      getWorkflow (runEvents "w" (searchEvents "w" 0) emptyRegistry) "w"
        = some { id := "w", status := "completed", progress := 100,
                 message := "No papers found", results := some searchEmptyResults } ∧
      searchEmptyResults.papers_processed = some 0 ∧
      searchEmptyResults.synthesis_paper_count = some 0 ∧
      searchEmptyResults.synthesis_text = some "No papers found for the search query" ∧
      "No papers found for the search query" ≠ "" ∧
      ((uploadEvents "w" 0).all (fun e =>
        match e with
        | .agentCall a => a = "extraction"
        | _ => true) = true) ∧
      getWorkflow (runEvents "w" (uploadEvents "w" 0) emptyRegistry) "w"
        = some { id := "w", status := "completed", progress := 100,
                 message := "No content could be extracted from uploaded files",
                 results := some uploadEmptyResults } ∧
      uploadEmptyResults.papers_processed = some 0 ∧
      uploadEmptyResults.synthesis_paper_count = some 0 ∧
      uploadEmptyResults.synthesis_text
        = some "No content could be extracted from uploaded files" ∧
      "No content could be extracted from uploaded files" ≠ "" := by
  refine ⟨by decide, by decide, rfl, rfl, rfl, by decide, by decide, by decide, rfl, rfl,
    rfl, by decide⟩

/-! ## Extraction error isolation (C7) -/

theorem pyContains_of_suffix {b l : Str} (h : b <:+ l) : pyContains l b = true := by
  unfold pyContains
  rw [List.any_eq_true]
  exact ⟨b, (List.mem_tails b l).mpr h, List.isPrefixOf_iff_prefix.mpr (List.prefix_refl b)⟩

theorem extractionStep_length_le (pdfA : Bool) (topics : List Str) (f : UploadFile) :
    (extractionStep pdfA topics f).length ≤ 1 := by
  unfold extractionStep
  split
  · cases f.extractResult <;> simp
  · split
    · cases f.extractResult <;> simp
    · simp

theorem extractionProcess_length_le (pdfA : Bool) (files : List UploadFile)
    (topics : List Str) :
    (extractionProcess pdfA files topics).length ≤ files.length := by
  induction files with
  | nil => simp [extractionProcess]
  | cons f rest ih =>
    have hstep := extractionStep_length_le pdfA topics f
    simp only [extractionProcess, List.flatMap_cons, List.length_append, List.length_cons]
    simp only [extractionProcess] at ih
    omega

/-- **C7** (counterexample).  A text file whose extraction fails (the
handler catches the error and returns `None`) is silently dropped: the
returned list is empty, not a one-fallback-Paper-per-file batch. -/
theorem failed_extraction_drops_file :
    extractionProcess true [{ path := cs "uploads/bad.txt", extractResult := none }] [] = [] ∧
      (extractionProcess true
        [{ path := cs "uploads/bad.txt", extractResult := none }] []).length = 0 ∧
      ([{ path := cs "uploads/bad.txt", extractResult := none }] : List UploadFile).length = 1 :=
  ⟨rfl, rfl, rfl⟩

/-- **C7** (amended).  `Extractor.process` attempts each file independently
and never aborts the batch: the output has at most one Paper per input
file; every file with an unsupported extension yields its fallback Paper
(whose title contains the filename and whose abstract is the failure
marker) in the output; but a PDF or text file whose handler fails
(returning `None`) contributes nothing, so the output can be shorter than
the input. -/
theorem extraction_isolation_amended (pdfA : Bool) (files : List UploadFile)
    (topics : List Str) :
    (extractionProcess pdfA files topics).length ≤ files.length ∧
      (∀ f ∈ files,
        (pdfA && (cs ".pdf").isSuffixOf (toLowerStr f.path)) = false →
        (cs ".txt").isSuffixOf (toLowerStr f.path) = false →
          createFallbackPaper f.path topics ∈ extractionProcess pdfA files topics) ∧
      (∀ path ts, pyContains (createFallbackPaper path ts).title (pyBasename path) = true ∧
        (createFallbackPaper path ts).abstract
          = cs "Content extraction failed or unsupported file format") ∧
      (∀ f ∈ files, f.extractResult = none →
        ((pdfA && (cs ".pdf").isSuffixOf (toLowerStr f.path)) = true ∨
          (cs ".txt").isSuffixOf (toLowerStr f.path) = true) →
        extractionStep pdfA topics f = []) := by
  refine ⟨extractionProcess_length_le pdfA files topics, ?_, ?_, ?_⟩
  · intro f hf h1 h2
    refine List.mem_flatMap.mpr ⟨f, hf, ?_⟩
    unfold extractionStep
    rw [h1, h2]
    simp
  · intro path ts
    constructor
    · exact pyContains_of_suffix ⟨cs "Document: ", rfl⟩
    · rfl
  · intro f hf hres hcase
    by_cases h1 : (pdfA && (cs ".pdf").isSuffixOf (toLowerStr f.path)) = true
    · simp [extractionStep, h1, hres]
    · have h2 : (cs ".txt").isSuffixOf (toLowerStr f.path) = true := by
        rcases hcase with h | h
        · exact absurd h h1
        · exact h
      simp [extractionStep, h1, h2, hres]

/-- Witness for the amended C7 statement: a batch with one unsupported file
and one failing text file, hypotheses discharged concretely. -/
theorem extraction_isolation_amended_witness :
    createFallbackPaper (cs "uploads/img.png") [] ∈
        extractionProcess true
          [{ path := cs "uploads/img.png", extractResult := none },
           { path := cs "uploads/bad.txt", extractResult := none }] [] ∧
      extractionStep true [] { path := cs "uploads/bad.txt", extractResult := none } = [] := by
  have h := extraction_isolation_amended true
    [{ path := cs "uploads/img.png", extractResult := none },
     { path := cs "uploads/bad.txt", extractResult := none }] []
  exact ⟨h.2.1 { path := cs "uploads/img.png", extractResult := none }
           (by decide) (by decide) (by decide),
         h.2.2.2 { path := cs "uploads/bad.txt", extractResult := none }
           (by decide) rfl (by decide)⟩

/-! ## Topic co-occurrence (C9) -/

theorem bump_fst (m : List (Str × Nat)) (k : Str) :
    (bump m k).map Prod.fst =
      if k ∈ m.map Prod.fst then m.map Prod.fst else m.map Prod.fst ++ [k] := by
  induction m with
  | nil => simp [bump]
  | cons e rest ih =>
    by_cases h : e.1 = k
    · simp [bump, h]
    · have hne : ¬k = e.1 := fun hk => h hk.symm
      simp only [bump, h, if_false, List.map_cons, ih, List.mem_cons]
      by_cases hk : k ∈ rest.map Prod.fst <;> simp [hk, hne]

theorem bump_fst_nodup (m : List (Str × Nat)) (k : Str)
    (hm : (m.map Prod.fst).Nodup) : ((bump m k).map Prod.fst).Nodup := by
  rw [bump_fst]
  split
  · exact hm
  · rename_i hk
    simp [List.nodup_append, hm, List.disjoint_singleton, hk]

theorem bump_fst_toFinset (m : List (Str × Nat)) (k : Str) :
    ((bump m k).map Prod.fst).toFinset = insert k (m.map Prod.fst).toFinset := by
  rw [bump_fst]
  split
  · rename_i hk
    exact (Finset.insert_eq_self.mpr (List.mem_toFinset.mpr hk)).symm
  · rw [List.toFinset_append]
    simp [Finset.insert_eq, Finset.union_comm]

theorem foldl_bump_keys (l : List Str) (m : List (Str × Nat))
    (hm : (m.map Prod.fst).Nodup) :
    ((l.foldl bump m).map Prod.fst).Nodup ∧
      ((l.foldl bump m).map Prod.fst).toFinset
        = (m.map Prod.fst).toFinset ∪ l.toFinset := by
  induction l generalizing m with
  | nil => simpa using hm
  | cons t rest ih =>
    have h := ih (bump m t) (bump_fst_nodup m t hm)
    rw [List.foldl_cons]
    refine ⟨h.1, ?_⟩
    rw [h.2, bump_fst_toFinset, List.toFinset_cons, Finset.insert_union,
      Finset.union_insert]

theorem counterOf_length (l : List Str) :
    (counterOf l).length = l.toFinset.card := by
  have h := foldl_bump_keys l [] (by simp)
  unfold counterOf
  rw [show (List.foldl bump [] l).length
      = ((List.foldl bump [] l).map Prod.fst).length by rw [List.length_map]]
  rw [← List.toFinset_card_of_nodup h.1, h.2]
  simp

theorem lookupCount_bump (m : List (Str × Nat)) (k' k : Str) :
    lookupCount (bump m k') k
      = if k' = k then lookupCount m k + 1 else lookupCount m k := by
  induction m with
  | nil =>
    by_cases h : k' = k <;> simp [bump, lookupCount, h]
  | cons e rest ih =>
    obtain ⟨k₀, v⟩ := e
    by_cases h1 : k₀ = k'
    · subst h1
      by_cases h2 : k₀ = k <;> simp [bump, lookupCount, h2]
    · by_cases hk : k₀ = k
      · subst hk
        have h2 : ¬k' = k₀ := fun heq => h1 heq.symm
        simp [bump, lookupCount, h1, h2]
      · by_cases h2 : k' = k
        · subst h2
          simp [bump, lookupCount, h1, hk, ih]
        · simp [bump, lookupCount, h1, hk, h2, ih]

theorem lookupCount_foldl_pairs (ps : List (Str × Str)) (m : List (Str × Nat))
    (k : Str) :
    lookupCount (ps.foldl (fun acc pr => bump acc (pairKey pr)) m) k
      = lookupCount m k + ps.countP (fun pr => pairKey pr == k) := by
  induction ps generalizing m with
  | nil => simp
  | cons p rest ih =>
    rw [List.foldl_cons, ih, lookupCount_bump, List.countP_cons]
    by_cases h : pairKey p = k
    · simp [h]
      omega
    · simp [h]

theorem countP_orderedPairs_eq_specKeyCount (c : List Str) (k : Str) :
    (orderedPairs c).countP (fun pr => pairKey pr == k) = specKeyCount c k := by
  induction c with
  | nil => simp [orderedPairs, specKeyCount]
  | cons t rest ih =>
    have h2 : (List.map (fun s => s.getD 0 [] ++ cs "_" ++ s.getD 1 [])
        (List.map (List.cons t) (List.sublistsLen 1 rest))).count k
        = rest.countP ((fun pr => pairKey pr == k) ∘ fun u => (t, u)) := by
      rw [List.map_map, List.sublistsLen_one, List.map_map, List.count_eq_countP,
        List.countP_map, List.countP_reverse]
      rfl
    simp only [orderedPairs]
    rw [List.countP_append, List.countP_map, ih]
    unfold specKeyCount
    rw [List.sublistsLen_succ_cons, List.map_append, List.count_append,
      show List.sublistsLen (1 + 1) rest = List.sublistsLen 2 rest from rfl, h2]
    omega

/-- **C9** (counterexample).  The co-occurrence table is keyed by the
*ordered* string `f"{topic1}_{topic2}"`: the same unordered topic pair
listed in opposite orders produces two different keys.  With the two
classifications `["A","B"]` and `["B","A"]` both papers carry both topics,
yet the table holds `"A_B" ↦ 1` and `"B_A" ↦ 1` instead of a single pair
counted twice, so the count for a pair depends on the order in which the
topics appear. -/
theorem cooccurrence_depends_on_topic_order :
    (analyzeTopics [[cs "A", cs "B"]]).topic_cooccurrence = [(cs "A_B", 1)] ∧
      (analyzeTopics [[cs "B", cs "A"]]).topic_cooccurrence = [(cs "B_A", 1)] ∧
      (analyzeTopics [[cs "A", cs "B"]]).topic_cooccurrence
        ≠ (analyzeTopics [[cs "B", cs "A"]]).topic_cooccurrence ∧
      lookupCount (analyzeTopics [[cs "A", cs "B"], [cs "B", cs "A"]]).topic_cooccurrence
        (cs "A_B") = 1 ∧
      lookupCount (analyzeTopics [[cs "A", cs "B"], [cs "B", cs "A"]]).topic_cooccurrence
        (cs "B_A") = 1 := by
  refine ⟨by decide, by decide, by decide, by decide, by decide⟩

/-- **C9** (amended).  The co-occurrence table is keyed by the ordered pair
string `topic1_topic2` in within-list order: the count stored under any key
`k` is the number of ordered occurrence pairs (length-two sublists) across
all classification lists whose key string is `k`, so it depends on the
order in which two topics appear (and duplicated labels contribute multiple
pairs).  `total_unique_topics` does equal the number of distinct topic
labels across all classifications, as claimed. -/
theorem topic_analysis_amended (cls : List (List Str)) (k : Str) :
    (analyzeTopics cls).total_unique_topics = cls.flatten.toFinset.card ∧
      lookupCount (analyzeTopics cls).topic_cooccurrence k
        = (cls.map (fun c => specKeyCount c k)).sum := by
  constructor
  · unfold analyzeTopics
    dsimp only
    exact counterOf_length _
  · unfold analyzeTopics
    dsimp only
    rw [lookupCount_foldl_pairs, List.countP_flatMap]
    have hmap : List.map ((List.countP fun pr => pairKey pr == k) ∘ orderedPairs) cls
        = List.map (fun c => specKeyCount c k) cls :=
      List.map_congr_left (fun c _ => countP_orderedPairs_eq_specKeyCount c k)
    rw [hmap]
    show 0 + _ = _
    rw [Nat.zero_add]

/-! ## Narration artifacts (C8) -/

theorem chunksOf100_length (ws : List Str) :
    (chunksOf100 ws).length = (ws.length + 99) / 100 := by
  match ws with
  | [] => simp [chunksOf100]
  | w :: rest =>
    rw [chunksOf100]
    have ih := chunksOf100_length (rest.drop 99)
    simp only [List.length_cons, List.length_drop] at ih ⊢
    omega
termination_by ws.length
decreasing_by simp [List.length_drop]; omega

/-- **C8** (counterexample).  When TTS is available but the renderer fails
internally (`_generate_gtts_audio` catches its own exception and returns
`[]`), `process` returns an empty artifact list — no placeholder; likewise
when the synthesis text is empty. -/
theorem render_failure_returns_no_artifacts :
    audioProcess true false (cs "Synthesis narrative.") (cs "u1") = [] ∧
      (audioProcess true false (cs "Synthesis narrative.") (cs "u1")).length = 0 ∧
      audioProcess true true [] (cs "u1") = [] :=
  ⟨rfl, rfl, rfl⟩

/-- **C8** (amended).  `Narrator.process` never raises (it is a total
function of its modelled inputs); when TTS is unavailable it returns
exactly one placeholder text artifact; but when TTS is available it returns
whatever the renderer produced: one mp3 reference for non-empty text within
the 5000-character limit, one reference per 100-word chunk above the limit,
and the empty list when the synthesis text is empty or the renderer failed
(the renderer swallows its own errors and returns `[]`). -/
theorem narration_artifacts_amended (ok : Bool) (text u : Str) :
    audioProcess false ok text u = [cs "audio/synthesis_" ++ u ++ cs ".txt"] ∧
      audioProcess true false text u = [] ∧
      audioProcess true ok [] u = [] ∧
      (text ≠ [] → text.length ≤ 5000 →
        audioProcess true true text u = [cs "audio/synthesis_" ++ u ++ cs ".mp3"]) ∧
      (5000 < text.length →
        (audioProcess true true text u).length = ((pySplit text).length + 99) / 100) := by
  refine ⟨rfl, ?_, by simp [audioProcess], ?_, ?_⟩
  · by_cases h : text = [] <;> simp [audioProcess, generateGttsAudio, h]
  · intro h1 h2
    simp [audioProcess, generateGttsAudio, h1, Nat.not_lt.mpr h2]
  · intro h
    have hne : text ≠ [] := by
      intro he
      rw [he] at h
      simp at h
    simp [audioProcess, generateGttsAudio, hne, h, chunksOf100_length]

/-- Witness for the amended C8 statement: both hypothesis-bearing conjuncts
applied at concrete inputs. -/
theorem narration_artifacts_amended_witness :
    audioProcess true true (cs "abc") (cs "u")
        = [cs "audio/synthesis_" ++ cs "u" ++ cs ".mp3"] ∧
      (audioProcess true true (List.replicate 5001 'a') (cs "u")).length
        = ((pySplit (List.replicate 5001 'a')).length + 99) / 100 :=
  ⟨(narration_artifacts_amended true (cs "abc") (cs "u")).2.2.2.1 (by decide) (by decide),
   (narration_artifacts_amended true (List.replicate 5001 'a') (cs "u")).2.2.2.2
     (by rw [List.length_replicate]; omega)⟩

/-! ### Length bounds for the UI truncation -/

theorem pyRfind_lt_length (l : Str) (c : Char) : pyRfind l c < (l.length : Int) := by
  unfold pyRfind
  cases h : l.reverse.findIdx? (· = c) with
  | none =>
    simp only
    omega
  | some i =>
    simp only
    omega

/-- The truncation snippet never produces more than 153 characters: 150 kept
characters plus a possibly appended `"..."`. -/
theorem truncate150_length_le (s : Str) : (truncate150 s).length ≤ 153 := by
  unfold truncate150
  split
  · omega
  · rename_i h
    have ht : (s.take 150).length = 150 := by
      rw [List.length_take]; omega
    have hp := pyRfind_lt_length (s.take 150) '.'
    have hsp := pyRfind_lt_length (s.take 150) ' '
    rw [ht] at hp hsp
    dsimp only
    split
    · rename_i hper
      have h1 : (pyRfind (s.take 150) '.').toNat + 1 ≤ 150 := by omega
      have := List.length_take ((pyRfind (s.take 150) '.').toNat + 1) (s.take 150)
      omega
    · have hdots : (cs "...").length = 3 := rfl
      split
      · rename_i hsp2
        have h1 : (pyRfind (s.take 150) ' ').toNat ≤ 149 := by omega
        have h2 := List.length_take (pyRfind (s.take 150) ' ').toNat (s.take 150)
        rw [ht] at h2
        rw [List.length_append, h2, hdots]
        omega
      · rw [List.length_append, ht, hdots]

theorem fallbackSummary_length_le (p : Paper) :
    (generateFallbackSummary p).summary.length ≤ 153 := by
  simp only [generateFallbackSummary]
  exact truncate150_length_le _

theorem abstractiveFinal_length_le (oracle : InsightOracle) (p : Paper)
    (chunks : List Str) :
    (generateAbstractiveFinal oracle p chunks).summary.length ≤ 153 := by
  simp only [generateAbstractiveFinal]
  exact truncate150_length_le _

/-- The extractive generator either truncates (so at most 153 characters) or
returns the tokenized sentences joined verbatim, which happens exactly in the
one-or-two-sentence branch. -/
theorem extractiveSummary_cases (oracle : InsightOracle) (p : Paper) :
    (generateExtractiveSummary oracle p).summary.length ≤ 153 ∨
    (generateExtractiveSummary oracle p).summary
      = joinSpace (tokenizeSentences (prepareText p)) := by
  unfold generateExtractiveSummary
  dsimp only
  split
  · exact Or.inl (fallbackSummary_length_le p)
  · split
    · exact Or.inl (fallbackSummary_length_le p)
    · dsimp only
      split
      · exact Or.inr rfl
      · exact Or.inl (truncate150_length_le _)

theorem extractKeyInsights_length_le (oracle : InsightOracle) (p : Paper)
    (summary : Str) : (extractKeyInsights oracle p summary).length ≤ 3 := by
  unfold extractKeyInsights
  simp only [List.length_take]
  omega

theorem fallback_fields (p : Paper) :
    (generateFallbackSummary p).length = (generateFallbackSummary p).summary.length ∧
      (generateFallbackSummary p).paper_id = p.id ∧
      (generateFallbackSummary p).key_insights.length ≤ 3 := by
  unfold generateFallbackSummary
  dsimp only
  exact ⟨rfl, rfl, by simp⟩

theorem extractive_fields (oracle : InsightOracle) (p : Paper) :
    (generateExtractiveSummary oracle p).length
        = (generateExtractiveSummary oracle p).summary.length ∧
      (generateExtractiveSummary oracle p).paper_id = p.id ∧
      (generateExtractiveSummary oracle p).key_insights.length ≤ 3 := by
  unfold generateExtractiveSummary
  dsimp only
  split
  · exact fallback_fields p
  · split
    · exact fallback_fields p
    · exact ⟨rfl, rfl, extractKeyInsights_length_le oracle p _⟩


/-! ## Workflow progress and terminal states (C3, C6) -/

theorem div35_le (n i : Nat) (h : i < n) : 35 * i / n ≤ 35 := by
  have h1 : 35 * i ≤ 35 * n := Nat.mul_le_mul_left 35 h.le
  have h2 : 35 * n / n ≤ 35 := by
    rcases Nat.eq_zero_or_pos n with hz | hp
    · simp [hz]
    · rw [Nat.mul_div_cancel _ hp]
  exact le_trans (Nat.div_le_div_right h1) h2

theorem filterMap_progress_searchBlock (n : Nat) (l : List Nat) :
    List.filterMap progressOf (l.flatMap (fun i =>
      [searchPaperUpdate n i, Event.sleep, Event.agentCall "classification",
       Event.agentCall "summarization"]))
      = l.map (fun i => 35 + 35 * i / n) := by
  induction l with
  | nil => rfl
  | cons i rest ih =>
    simp only [List.flatMap_cons, List.filterMap_append, ih]
    rfl

theorem filterMap_progress_uploadBlock (n : Nat) (l : List Nat) :
    List.filterMap progressOf (l.flatMap (fun i =>
      [uploadPaperUpdate n i, Event.sleep, Event.agentCall "classification",
       Event.agentCall "summarization"]))
      = l.map (fun i => 30 + 35 * i / n) := by
  induction l with
  | nil => rfl
  | cons i rest ih =>
    simp only [List.flatMap_cons, List.filterMap_append, ih]
    rfl

theorem searchWrites_eq (wid : String) (n : Nat) (hn : n ≠ 0) :
    progressWrites (searchEvents wid n)
      = [0, 20, 30, 35] ++ (List.range n).map (fun i => 35 + 35 * i / n)
        ++ [75, 85, 90, 95, 98, 100] := by
  unfold searchEvents searchBody searchFinal progressWrites
  rw [if_neg hn, if_neg hn]
  simp only [List.filterMap_append, filterMap_progress_searchBlock]
  simp [List.filterMap_cons, progressOf]

theorem uploadWrites_eq (wid : String) (n : Nat) (hn : n ≠ 0) :
    progressWrites (uploadEvents wid n)
      = [0, 10, 25, 30] ++ (List.range n).map (fun i => 30 + 35 * i / n)
        ++ [70, 80, 85, 95, 98, 100] := by
  unfold uploadEvents uploadBody uploadFinal progressWrites
  rw [if_neg hn, if_neg hn]
  simp only [List.filterMap_append, filterMap_progress_uploadBlock]
  simp [List.filterMap_cons, progressOf]

theorem searchWrites_pairwise (wid : String) (n : Nat) :
    List.Pairwise (· ≤ ·) (progressWrites (searchEvents wid n)) := by
  by_cases hn : n = 0
  · subst hn
    have h : progressWrites (searchEvents wid 0) = [0, 20, 30, 100] := rfl
    rw [h]
    decide
  · rw [searchWrites_eq wid n hn, List.append_assoc]
    rw [List.pairwise_append]
    refine ⟨by decide, ?_, ?_⟩
    · rw [List.pairwise_append]
      refine ⟨?_, by decide, ?_⟩
      · exact (List.pairwise_lt_range n).map _
          (fun a b hab => Nat.add_le_add_left (Nat.div_le_div_right
            (Nat.mul_le_mul_left 35 hab.le)) 35)
      · intro x hx y hy
        obtain ⟨i, hi, rfl⟩ := List.mem_map.mp hx
        have h70 : 35 * i / n ≤ 35 := div35_le n i (List.mem_range.mp hi)
        have hy75 : 75 ≤ y := by
          simp only [List.mem_cons, List.not_mem_nil, or_false] at hy
          rcases hy with rfl | rfl | rfl | rfl | rfl | rfl <;> omega
        omega
    · intro x hx y hy
      have hx35 : x ≤ 35 := by
        simp only [List.mem_cons, List.not_mem_nil, or_false] at hx
        rcases hx with rfl | rfl | rfl | rfl <;> omega
      rcases List.mem_append.mp hy with hy1 | hy2
      · obtain ⟨i, hi, rfl⟩ := List.mem_map.mp hy1
        exact le_trans hx35 (Nat.le_add_right 35 _)
      · have : 70 ≤ y := by
          simp only [List.mem_cons, List.not_mem_nil, or_false] at hy2
          rcases hy2 with rfl | rfl | rfl | rfl | rfl | rfl <;> omega
        omega

theorem uploadWrites_pairwise (wid : String) (n : Nat) :
    List.Pairwise (· ≤ ·) (progressWrites (uploadEvents wid n)) := by
  by_cases hn : n = 0
  · subst hn
    have h : progressWrites (uploadEvents wid 0) = [0, 10, 25, 100] := rfl
    rw [h]
    decide
  · rw [uploadWrites_eq wid n hn, List.append_assoc]
    rw [List.pairwise_append]
    refine ⟨by decide, ?_, ?_⟩
    · rw [List.pairwise_append]
      refine ⟨?_, by decide, ?_⟩
      · exact (List.pairwise_lt_range n).map _
          (fun a b hab => Nat.add_le_add_left (Nat.div_le_div_right
            (Nat.mul_le_mul_left 35 hab.le)) 30)
      · intro x hx y hy
        obtain ⟨i, hi, rfl⟩ := List.mem_map.mp hx
        have h65 : 35 * i / n ≤ 35 := div35_le n i (List.mem_range.mp hi)
        have hy70 : 70 ≤ y := by
          simp only [List.mem_cons, List.not_mem_nil, or_false] at hy
          rcases hy with rfl | rfl | rfl | rfl | rfl | rfl <;> omega
        omega
    · intro x hx y hy
      have hx30 : x ≤ 30 := by
        simp only [List.mem_cons, List.not_mem_nil, or_false] at hx
        rcases hx with rfl | rfl | rfl | rfl <;> omega
      rcases List.mem_append.mp hy with hy1 | hy2
      · obtain ⟨i, hi, rfl⟩ := List.mem_map.mp hy1
        exact le_trans hx30 (Nat.le_add_right 30 _)
      · have : 70 ≤ y := by
          simp only [List.mem_cons, List.not_mem_nil, or_false] at hy2
          rcases hy2 with rfl | rfl | rfl | rfl | rfl | rfl <;> omega
        omega

theorem searchBody_no_terminal (n : Nat) :
    ∀ e ∈ searchBody n, isTerminalEvent e = false := by
  unfold searchBody
  intro e he
  rcases List.mem_append.mp he with h6 | hrest
  · simp only [List.mem_cons, List.not_mem_nil, or_false] at h6
    rcases h6 with rfl | rfl | rfl | rfl | rfl | rfl <;> rfl
  · by_cases hn : n = 0
    · rw [if_pos hn] at hrest
      exact absurd hrest (List.not_mem_nil e)
    · rw [if_neg hn] at hrest
      rcases List.mem_append.mp hrest with hmid | htail
      · rcases List.mem_append.mp hmid with h2 | hblock
        · simp only [List.mem_cons, List.not_mem_nil, or_false] at h2
          rcases h2 with rfl | rfl <;> rfl
        · obtain ⟨i, _, hei⟩ := List.mem_flatMap.mp hblock
          simp only [List.mem_cons, List.not_mem_nil, or_false] at hei
          rcases hei with rfl | rfl | rfl | rfl <;> rfl
      · simp only [List.mem_cons, List.not_mem_nil, or_false] at htail
        rcases htail with rfl | rfl | rfl | rfl | rfl | rfl | rfl | rfl | rfl | rfl | rfl <;>
          rfl

theorem uploadBody_no_terminal (n : Nat) :
    ∀ e ∈ uploadBody n, isTerminalEvent e = false := by
  unfold uploadBody
  intro e he
  rcases List.mem_append.mp he with h6 | hrest
  · simp only [List.mem_cons, List.not_mem_nil, or_false] at h6
    rcases h6 with rfl | rfl | rfl | rfl | rfl | rfl <;> rfl
  · by_cases hn : n = 0
    · rw [if_pos hn] at hrest
      exact absurd hrest (List.not_mem_nil e)
    · rw [if_neg hn] at hrest
      rcases List.mem_append.mp hrest with hmid | htail
      · rcases List.mem_append.mp hmid with h2 | hblock
        · simp only [List.mem_cons, List.not_mem_nil, or_false] at h2
          rcases h2 with rfl | rfl <;> rfl
        · obtain ⟨i, _, hei⟩ := List.mem_flatMap.mp hblock
          simp only [List.mem_cons, List.not_mem_nil, or_false] at hei
          rcases hei with rfl | rfl | rfl | rfl <;> rfl
      · simp only [List.mem_cons, List.not_mem_nil, or_false] at htail
        rcases htail with rfl | rfl | rfl | rfl | rfl | rfl | rfl <;> rfl

theorem searchFinal_terminal (wid : String) (n : Nat) :
    isTerminalEvent (searchFinal wid n) = true := by
  unfold searchFinal
  split <;> rfl

theorem uploadFinal_terminal (wid : String) (n : Nat) :
    isTerminalEvent (uploadFinal wid n) = true := by
  unfold uploadFinal
  split <;> rfl

/-- A prefix cut strictly before the final event contains no terminal
event. -/
theorem take_no_terminal {body : List Event} {fin : Event} {k : Nat}
    (hbody : ∀ e ∈ body, isTerminalEvent e = false)
    (hk : k < (body ++ [fin]).length) :
    ∀ e ∈ (body ++ [fin]).take k, isTerminalEvent e = false := by
  intro e he
  apply hbody
  have hk' : k ≤ body.length := by
    simp only [List.length_append, List.length_cons, List.length_nil] at hk
    omega
  rw [List.take_append_of_le_length hk'] at he
  exact List.take_subset k body he

/-- Progress writes of a trace prefix stay non-decreasing. -/
theorem take_writes_chain {evs : List Event} {k : Nat}
    (hp : List.Pairwise (· ≤ ·) (progressWrites evs)) :
    List.Chain' (· ≤ ·) (progressWrites (evs.take k)) := by
  have hsub : (progressWrites (evs.take k)).Sublist (progressWrites evs) :=
    List.Sublist.filterMap progressOf (List.take_sublist k evs)
  exact (hp.sublist hsub).chain'

theorem applyEvent_preserves (wid : String) (reg : Registry) (e : Event)
    (h : (reg wid).isSome) : ((applyEvent wid reg e) wid).isSome := by
  cases e with
  | create st => simp [applyEvent, createWorkflow]
  | update u =>
    simp only [applyEvent, updateWorkflow, if_pos]
    rw [Option.isSome_map']
    exact h
  | agentCall a => exact h
  | sleep => exact h

theorem runEvents_preserves (wid : String) (evs : List Event) (reg : Registry)
    (h : (reg wid).isSome) : ((runEvents wid evs reg) wid).isSome := by
  induction evs generalizing reg with
  | nil => exact h
  | cons e rest ih =>
    exact ih (applyEvent wid reg e) (applyEvent_preserves wid reg e h)

theorem runEvents_concat (wid : String) (evs : List Event) (e : Event)
    (reg : Registry) :
    runEvents wid (evs ++ [e]) reg = applyEvent wid (runEvents wid evs reg) e := by
  simp [runEvents, List.foldl_append]

/-- Applying the failure write to any registry in which the record exists
yields the terminal failed record. -/
theorem failTrace_final_record (wid err mh : String) (t : List Event)
    (h : ((runEvents wid t emptyRegistry) wid).isSome) :
    ∃ r, getWorkflow (runEvents wid (t ++ [failEvent mh err wid]) emptyRegistry) wid
        = some r ∧
      r.status = "failed" ∧ r.progress = 0 ∧ r.message = mh ++ err ∧
      r.results = some { workflow_id := some wid, error := some err,
                         status := some "failed" } := by
  rw [getWorkflow, runEvents_concat]
  obtain ⟨r0, hr0⟩ := Option.isSome_iff_exists.mp h
  refine ⟨mergeUpdate r0 ⟨some "failed", some 0, some (mh ++ err),
    some ⟨some wid, none, none, none, some err, some "failed"⟩⟩, ?_, rfl, rfl, rfl, rfl⟩
  simp [applyEvent, failEvent, updateWorkflow, hr0]

/-- The traces decompose with `create "processing"` as their first event. -/
theorem searchEvents_cons (wid : String) (n : Nat) :
    searchEvents wid n
      = Event.create "processing" :: ((searchBody n).tail ++ [searchFinal wid n]) := rfl

theorem uploadEvents_cons (wid : String) (n : Nat) :
    uploadEvents wid n
      = Event.create "processing" :: ((uploadBody n).tail ++ [uploadFinal wid n]) := rfl

/-- After at least one event of a trace that starts with `create`, the
record exists. -/
theorem runEvents_take_succ_create (wid st : String) (t : List Event) (k : Nat) :
    ((runEvents wid ((Event.create st :: t).take (k + 1)) emptyRegistry) wid).isSome := by
  rw [List.take_succ_cons]
  show ((runEvents wid (List.take k t)
    (applyEvent wid emptyRegistry (Event.create st))) wid).isSome
  apply runEvents_preserves
  simp [applyEvent, createWorkflow]

/-- **C3**.  For both background flows: on a successful run the sequence of
progress values written to the record is non-decreasing, and the only
terminal-state write is the very last event of the trace; on a run
interrupted by an exception after any `k` events, the progress writes
before the failure write are non-decreasing, no terminal write precedes it,
and the failure write is the last event of the trace — so after the record
first reaches a terminal state no further update is applied by any writer. -/
theorem progress_monotone_until_terminal (wid err : String) (n k : Nat) :
    (List.Chain' (· ≤ ·) (progressWrites (searchEvents wid n)) ∧
      (∀ e ∈ (searchEvents wid n).dropLast, isTerminalEvent e = false) ∧
      (searchEvents wid n).getLast? = some (searchFinal wid n) ∧
      isTerminalEvent (searchFinal wid n) = true) ∧
    (List.Chain' (· ≤ ·) (progressWrites (uploadEvents wid n)) ∧
      (∀ e ∈ (uploadEvents wid n).dropLast, isTerminalEvent e = false) ∧
      (uploadEvents wid n).getLast? = some (uploadFinal wid n) ∧
      isTerminalEvent (uploadFinal wid n) = true) ∧
    (k < (searchEvents wid n).length →
      List.Chain' (· ≤ ·) (progressWrites ((searchEvents wid n).take k)) ∧
      (∀ e ∈ (searchEvents wid n).take k, isTerminalEvent e = false) ∧
      (searchFailTrace wid n k err).getLast?
        = some (failEvent "Processing failed: " err wid) ∧
      isTerminalEvent (failEvent "Processing failed: " err wid) = true) ∧
    (k < (uploadEvents wid n).length →
      List.Chain' (· ≤ ·) (progressWrites ((uploadEvents wid n).take k)) ∧
      (∀ e ∈ (uploadEvents wid n).take k, isTerminalEvent e = false) ∧
      (uploadFailTrace wid n k err).getLast?
        = some (failEvent "Upload processing failed: " err wid) ∧
      isTerminalEvent (failEvent "Upload processing failed: " err wid) = true) := by
  refine ⟨⟨(searchWrites_pairwise wid n).chain', ?_, ?_, searchFinal_terminal wid n⟩,
    ⟨(uploadWrites_pairwise wid n).chain', ?_, ?_, uploadFinal_terminal wid n⟩, ?_, ?_⟩
  · rw [searchEvents, List.dropLast_concat]
    exact searchBody_no_terminal n
  · rw [searchEvents]
    exact List.getLast?_concat _
  · rw [uploadEvents, List.dropLast_concat]
    exact uploadBody_no_terminal n
  · rw [uploadEvents]
    exact List.getLast?_concat _
  · intro hk
    refine ⟨take_writes_chain (searchWrites_pairwise wid n),
      take_no_terminal (searchBody_no_terminal n) hk, ?_, rfl⟩
    rw [searchFailTrace]
    exact List.getLast?_concat _
  · intro hk
    refine ⟨take_writes_chain (uploadWrites_pairwise wid n),
      take_no_terminal (uploadBody_no_terminal n) hk, ?_, rfl⟩
    rw [uploadFailTrace]
    exact List.getLast?_concat _

/-- Witness for C3: both interruption conjuncts applied at a concrete run
(two papers, failure after five events). -/
theorem progress_monotone_until_terminal_witness :
    (List.Chain' (· ≤ ·) (progressWrites ((searchEvents "w" 2).take 5)) ∧
      (∀ e ∈ (searchEvents "w" 2).take 5, isTerminalEvent e = false) ∧
      (searchFailTrace "w" 2 5 "boom").getLast?
        = some (failEvent "Processing failed: " "boom" "w") ∧
      isTerminalEvent (failEvent "Processing failed: " "boom" "w") = true) ∧
    (List.Chain' (· ≤ ·) (progressWrites ((uploadEvents "w" 2).take 5)) ∧
      (∀ e ∈ (uploadEvents "w" 2).take 5, isTerminalEvent e = false) ∧
      (uploadFailTrace "w" 2 5 "boom").getLast?
        = some (failEvent "Upload processing failed: " "boom" "w") ∧
      isTerminalEvent (failEvent "Upload processing failed: " "boom" "w") = true) :=
  ⟨(progress_monotone_until_terminal "w" "boom" 2 5).2.2.1 (by decide),
   (progress_monotone_until_terminal "w" "boom" 2 5).2.2.2 (by decide)⟩

/-- **C6**.  Whenever the background pipeline is interrupted by an unhandled
exception after at least one event (the first event, `create_workflow`, is
an in-memory dict write that cannot raise), the `except` clause updates the
workflow record to status `failed` with progress `0`, a message carrying
the error text, and an error payload; the coroutine then ends normally, the
failure write being its last event. -/
theorem unhandled_exception_records_failure (wid err : String) (n k : Nat)
    (hk : 1 ≤ k) :
    (∃ r, getWorkflow (runEvents wid (searchFailTrace wid n k err) emptyRegistry) wid
        = some r ∧
      r.status = "failed" ∧ r.progress = 0 ∧
      r.message = "Processing failed: " ++ err ∧
      r.results = some { workflow_id := some wid, error := some err,
                         status := some "failed" }) ∧
    (∃ r, getWorkflow (runEvents wid (uploadFailTrace wid n k err) emptyRegistry) wid
        = some r ∧
      r.status = "failed" ∧ r.progress = 0 ∧
      r.message = "Upload processing failed: " ++ err ∧
      r.results = some { workflow_id := some wid, error := some err,
                         status := some "failed" }) := by
  obtain ⟨k', rfl⟩ : ∃ k', k = k' + 1 := ⟨k - 1, by omega⟩
  constructor
  · rw [searchFailTrace]
    refine failTrace_final_record wid err "Processing failed: " _ ?_
    rw [searchEvents_cons]
    exact runEvents_take_succ_create wid "processing" _ k'
  · rw [uploadFailTrace]
    refine failTrace_final_record wid err "Upload processing failed: " _ ?_
    rw [uploadEvents_cons]
    exact runEvents_take_succ_create wid "processing" _ k'

/-- Witness for C6: a one-paper run interrupted after three events. -/
theorem unhandled_exception_records_failure_witness :
    (∃ r, getWorkflow (runEvents "w" (searchFailTrace "w" 1 3 "boom") emptyRegistry) "w"
        = some r ∧
      r.status = "failed" ∧ r.progress = 0 ∧
      r.message = "Processing failed: " ++ "boom" ∧
      r.results = some { workflow_id := some "w", error := some "boom",
                         status := some "failed" }) ∧
    (∃ r, getWorkflow (runEvents "w" (uploadFailTrace "w" 1 3 "boom") emptyRegistry) "w"
        = some r ∧
      r.status = "failed" ∧ r.progress = 0 ∧
      r.message = "Upload processing failed: " ++ "boom" ∧
      r.results = some { workflow_id := some "w", error := some "boom",
                         status := some "failed" }) :=
  unhandled_exception_records_failure "w" "boom" 1 3 (by decide)

set_option maxRecDepth 10000 in
/-- **C1** (code bug, evaluated at the failing input).  In the `routes.py`
background loops the Classifier call completes first, but its result is
written to `paper.topics` only *after* the Summarizer call, so the Summary
echoes the paper's pre-classification topics.  For a freshly discovered
paper (`topics = []`) titled "Deep learning methods" the Classifier assigns
`["Machine Learning"]`, yet the Summary's `topics` field is `[]`; the
orchestrator's own direct implementation of the same loop (which writes
`topics` before summarizing, as the spec requires) echoes
`["Machine Learning"]`. -/
theorem background_loop_summarizes_before_topics_written :
    (routesAnalysisLoop (fun _ => []) [deepLearningPaper]).classifications
        = [[cs "Machine Learning"]] ∧
      ((routesAnalysisLoop (fun _ => []) [deepLearningPaper]).summaries.map
        (fun s => s.topics)) = [[]] ∧
      ((orchestratorAnalysisLoop (fun _ => []) [deepLearningPaper]).summaries.map
        (fun s => s.topics)) = [[cs "Machine Learning"]] ∧
      ([] : List Str) ≠ [cs "Machine Learning"] := by
  refine ⟨by decide, by decide, by decide, by decide⟩

theorem abstractive_fields (oracle : InsightOracle) (p : Paper)
    (chunks : List Str) :
    (generateAbstractiveFinal oracle p chunks).length
        = (generateAbstractiveFinal oracle p chunks).summary.length ∧
      (generateAbstractiveFinal oracle p chunks).paper_id = p.id ∧
      (generateAbstractiveFinal oracle p chunks).key_insights.length ≤ 3 := by
  unfold generateAbstractiveFinal
  dsimp only
  exact ⟨rfl, rfl, extractKeyInsights_length_le oracle p _⟩

set_option maxRecDepth 10000 in
/-- **C2** (counterexample).  The claim says every summary returned by the
Summarizer has length at most the 150-character cap, "including the
extractive branch where the prepared text tokenizes into one or two
sentences".  On `longOneSentencePaper` the extractive path takes exactly
that branch (`summary = " ".join(sentences)`, no truncation) and returns a
152-character summary, exceeding the cap. -/
theorem summary_cap_violated_one_sentence_branch :
    150 < (generateExtractiveSummary (fun _ => []) longOneSentencePaper).summary.length ∧
      (generateExtractiveSummary (fun _ => []) longOneSentencePaper).method
        = cs "extractive" := by
  constructor
  · decide
  · decide

/-- **C2** (amended).  The summary text is bounded by 153 characters (the
150-character cut plus a possibly appended `"..."`) for the fallback method,
the abstractive method, and the extractive method whenever it truncates —
i.e. in every case except the extractive branch whose prepared text
tokenizes into one or two sentences, where the summary is those sentences
joined verbatim and is not capped at all. -/
theorem summary_cap_amended (oracle : InsightOracle) (p : Paper)
    (chunks : List Str) :
    (generateFallbackSummary p).summary.length ≤ 153 ∧
      (generateAbstractiveFinal oracle p chunks).summary.length ≤ 153 ∧
      ((generateExtractiveSummary oracle p).summary.length ≤ 153 ∨
        (generateExtractiveSummary oracle p).summary
          = joinSpace (tokenizeSentences (prepareText p))) :=
  ⟨fallbackSummary_length_le p, abstractiveFinal_length_le oracle p chunks,
    extractiveSummary_cases oracle p⟩

/-- **C10**.  In every method branch the returned dictionary's `length`
field equals the character length of its `summary` field, its `paper_id`
equals the processed paper's id, and `key_insights` has at most three
entries. -/
theorem summary_dict_fields_consistent (oracle : InsightOracle) (p : Paper)
    (chunks : List Str) :
    ((generateExtractiveSummary oracle p).length
        = (generateExtractiveSummary oracle p).summary.length ∧
      (generateExtractiveSummary oracle p).paper_id = p.id ∧
      (generateExtractiveSummary oracle p).key_insights.length ≤ 3) ∧
    ((generateFallbackSummary p).length
        = (generateFallbackSummary p).summary.length ∧
      (generateFallbackSummary p).paper_id = p.id ∧
      (generateFallbackSummary p).key_insights.length ≤ 3) ∧
    ((generateAbstractiveFinal oracle p chunks).length
        = (generateAbstractiveFinal oracle p chunks).summary.length ∧
      (generateAbstractiveFinal oracle p chunks).paper_id = p.id ∧
      (generateAbstractiveFinal oracle p chunks).key_insights.length ≤ 3) :=
  ⟨extractive_fields oracle p, fallback_fields p, abstractive_fields oracle p chunks⟩

end RPS
